import Mathlib

set_option autoImplicit false
set_option maxRecDepth 4000

/-! Shallow embedding of the node-service supervisor in nova/service.py.

Machine state that the Python code mutates (the Service object and the
external registry) is passed explicitly.  External collaborators that the
repository specifies only by contract (registry persistence, message bus,
green threads, looping-call timers) are modelled from the spec; exceptions
those collaborators may raise at a given call site are represented by
injected fault flags, so that every control path of the Python code is a
branch of the Lean definitions. -/

inductive DbErr
  | notFound
  | connection
deriving Repr, DecidableEq

structure ServiceRecord where
  id : Nat
  host : String
  binary : String
  topic : String
  report_count : Nat
  availability_zone : String
deriving Repr, DecidableEq

structure Registry where
  records : List ServiceRecord
  nextId : Nat
deriving Repr, DecidableEq

/-- Modelled from the spec: Registry contract, `get(id) -> record | NotFound`
(the registry storage engine is external to src). -/
def service_get (reg : Registry) (i : Nat) : Except DbErr ServiceRecord :=
  match reg.records.find? (fun r => r.id == i) with
  | some r => Except.ok r
  | none => Except.error DbErr.notFound

/-- Modelled from the spec: Registry contract,
`find(host, binary) -> record | NotFound`. -/
def service_get_by_args (reg : Registry) (host binary : String) :
    Except DbErr ServiceRecord :=
  match reg.records.find? (fun r => r.host == host && r.binary == binary) with
  | some r => Except.ok r
  | none => Except.error DbErr.notFound

/-- Modelled from the spec: Registry contract, `create(fields) -> record`;
the registry generates the id of the new record. -/
def service_create (reg : Registry) (host binary topic : String)
    (report_count : Nat) (zone : String) : Registry × ServiceRecord :=
  let created : ServiceRecord :=
    { id := reg.nextId, host := host, binary := binary, topic := topic,
      report_count := report_count, availability_zone := zone }
  ({ records := reg.records ++ [created], nextId := reg.nextId + 1 }, created)

/-- Modelled from the spec: Registry contract,
`update(id, fields) -> record | NotFound`; only `report_count` is ever
updated by the service code. -/
def service_update (reg : Registry) (i : Nat) (new_count : Nat) :
    Except DbErr (Registry × ServiceRecord) :=
  match reg.records.find? (fun r => r.id == i) with
  | none => Except.error DbErr.notFound
  | some r =>
    let r2 : ServiceRecord := { r with report_count := new_count }
    Except.ok
      ({ reg with records := reg.records.map (fun x => if x.id == i then r2 else x) }, r2)

/-- Modelled from the spec: Registry contract, `delete(id) -> () | NotFound`. -/
def service_destroy (reg : Registry) (i : Nat) : Except DbErr Registry :=
  match reg.records.find? (fun r => r.id == i) with
  | none => Except.error DbErr.notFound
  | some _ =>
    Except.ok { reg with records := reg.records.filter (fun r => !(r.id == i)) }

/-- Fault injection: a `true` flag stands for the registry call raising a
non-NotFound error (connection failure) instead of returning its normal
result. -/
def withFault {α : Type} (fault : Bool) (r : Except DbErr α) : Except DbErr α :=
  if fault then Except.error DbErr.connection else r

inductive TimerCallback
  | reportState
  | periodicTasks
deriving Repr, DecidableEq

/-- Modelled from the spec: a Periodic Timer (utils.LoopingCall) is external
to src; it is identified by its callback, interval and immediate-fire flag. -/
structure Timer where
  callback : TimerCallback
  interval : Nat
  now : Bool
deriving Repr, DecidableEq

inductive ProxyTarget
  | service
deriving Repr, DecidableEq

/-- Modelled from the spec: a bus subscription (rpc adapter consumer) is
external to src; it is identified by its connection, routing key, fanout
flag and dispatch target. -/
structure Consumer where
  connection : Nat
  topic : String
  fanout : Bool
  proxy : ProxyTarget
deriving Repr, DecidableEq

inductive Exc
  | managerFault
  | connectionFailure
  | greenletExit
  | timerFailure
  | attributeError
deriving Repr, DecidableEq

inductive Emission
  | debugRecreate
  | errorReport
  | recoveryNotice
  | warnNoDbEntry
deriving Repr, DecidableEq

/-- The notifications of the heartbeat contract: error reports and recovery
notices (debug and warning lines are not notifications). -/
def notices (l : List Emission) : List Emission :=
  l.filter (fun e => e == Emission.errorReport || e == Emission.recoveryNotice)

structure Flags where
  host : String
  report_interval : Nat
  periodic_interval : Nat
  node_availability_zone : String
  managers : List (String × String)
deriving Repr, DecidableEq

structure Service where
  host : String
  binary : String
  topic : String
  manager_class_name : Option String
  report_interval : Option Nat
  periodic_interval : Option Nat
  service_id : Nat
  model_disconnected : Bool
  timers : List Timer
  consumers : List Consumer
  conn : Option Nat
deriving Repr, DecidableEq

/-- Python truthiness of an optional string (`None` and the empty string are
falsy). -/
def pyTruthyStr : Option String → Bool
  | none => false
  | some s => !(s == "")

/-- Python truthiness of an optional natural (`None` and `0` are falsy). -/
def pyTruthyNat : Option Nat → Bool
  | none => false
  | some n => !(n == 0)

/-- `Service.__init__`: stores identity, manager name and the two intervals
verbatim and starts with an empty timer list. -/
def Service.init (host binary topic : String) (manager : Option String)
    (report_interval periodic_interval : Option Nat) : Service :=
  { host := host, binary := binary, topic := topic,
    manager_class_name := manager,
    report_interval := report_interval, periodic_interval := periodic_interval,
    service_id := 0, model_disconnected := false,
    timers := [], consumers := [], conn := none }

/-- `str.rpartition(sep)[2]`: the part after the last occurrence of `sep`,
or the whole string when `sep` does not occur. -/
def rpartitionAfter (s sep : String) : String :=
  (s.splitOn sep).getLastD s

/-- `FLAGS.get(topic + "_manager", None)`. -/
def flagsGetManager (flags : Flags) (topic : String) : Option String :=
  (flags.managers.find? (fun p => p.1 == topic ++ "_manager")).map (fun p => p.2)

/-- `Service.create`: resolves every unset (falsy) argument from its
configured default before calling the constructor. -/
def Service.create (flags : Flags) (argv0base : String)
    (host binary topic manager : Option String)
    (report_interval periodic_interval : Option Nat) : Service :=
  let host := if pyTruthyStr host then host.getD "" else flags.host
  let binary := if pyTruthyStr binary then binary.getD "" else argv0base
  let topic := if pyTruthyStr topic then topic.getD "" else rpartitionAfter binary "nova-"
  let manager := if pyTruthyStr manager then manager else flagsGetManager flags topic
  let report_interval :=
    if pyTruthyNat report_interval then report_interval else some flags.report_interval
  let periodic_interval :=
    if pyTruthyNat periodic_interval then periodic_interval else some flags.periodic_interval
  Service.init host binary topic manager report_interval periodic_interval

/-- `Service._create_service_ref`: creates the registry record with
`report_count = 0` and the configured availability zone, and overwrites
`self.service_id` with the id the registry generated. -/
def Service._create_service_ref (flags : Flags) (reg : Registry) (s : Service) :
    Registry × Service × ServiceRecord :=
  let res := service_create reg s.host s.binary s.topic 0 flags.node_availability_zone
  (res.1, { s with service_id := res.2.id }, res.2)

inductive AttrVal
  | own (name : String)
  | forwarded (v : Nat)
deriving Repr, DecidableEq

/-- The attribute names defined on a Service object itself (its instance
attributes and the methods of the class); Python consults these before the
`__getattr__` fallback. -/
def Service.definedAttrNames : List String :=
  ["host", "binary", "topic", "manager_class_name", "manager",
   "report_interval", "periodic_interval", "saved_args", "saved_kwargs",
   "timers", "service_id", "model_disconnected", "conn",
   "consumer_set_thread", "start", "_create_service_ref", "create",
   "kill", "stop", "wait", "periodic_tasks", "report_state",
   "__init__", "__getattr__"]

/-- Attribute lookup on a Service: the normal lookup first, and on a miss the
`Service.__getattr__` fallback `getattr(self.manager, key)`, which raises
AttributeError when the manager lacks the name as well.  Manager attribute
values are abstracted as naturals. -/
def Service.getattrLookup (managerAttrs : List (String × Nat)) (k : String) :
    Except Exc AttrVal :=
  if k ∈ Service.definedAttrNames then Except.ok (AttrVal.own k)
  else
    match managerAttrs.find? (fun p => p.1 == k) with
    | some p => Except.ok (AttrVal.forwarded p.2)
    | none => Except.error Exc.attributeError

inductive WaitOutcome
  | normal
  | cancelled
deriving Repr, DecidableEq

inductive CsEvent
  | waitCompleted
  | waitCancelled
  | closed
deriving Repr, DecidableEq

/-- The `_wait` body spawned by `start`: `try: consumer_set.wait() finally:
consumer_set.close()` — whatever way the wait finishes, `close` runs exactly
once afterwards.  Modelled from the spec: ConsumerSet wait/close live in the
rpc module, external to src. -/
def consumerSetWaitRun (o : WaitOutcome) : List CsEvent :=
  (match o with
   | WaitOutcome.normal => [CsEvent.waitCompleted]
   | WaitOutcome.cancelled => [CsEvent.waitCancelled]) ++ [CsEvent.closed]

structure StartFaults where
  initHostFault : Bool
  lookupFault : Bool
  createFault : Bool
  updateResourceFault : Bool
deriving Repr, DecidableEq

/-- The timer block at the end of `start`: a heartbeat LoopingCall when
`report_interval` is truthy, then a periodic-tasks LoopingCall when
`periodic_interval` is truthy, both with `now=False`, appended to
`self.timers`. -/
def startTimers (s : Service) : List Timer :=
  (s.timers ++
    (if pyTruthyNat s.report_interval then
      [{ callback := TimerCallback.reportState,
         interval := s.report_interval.getD 0, now := false }]
     else [])) ++
    (if pyTruthyNat s.periodic_interval then
      [{ callback := TimerCallback.periodicTasks,
         interval := s.periodic_interval.getD 0, now := false }]
     else [])

/-- The tail of `start` after the registry record is resolved: the optional
compute-resource reconciliation, the fresh connection, the three consumers
sharing it with the service as dispatch target, and the timers. -/
def startProceed (f : StartFaults) (freshConn : Nat) (reg : Registry) (s : Service) :
    Registry × Except Exc Service :=
  if s.binary == "nova-compute" && f.updateResourceFault then
    (reg, Except.error Exc.managerFault)
  else
    let consumer_all : Consumer :=
      { connection := freshConn, topic := s.topic, fanout := false,
        proxy := ProxyTarget.service }
    let consumer_node : Consumer :=
      { connection := freshConn, topic := s.topic ++ "." ++ s.host, fanout := false,
        proxy := ProxyTarget.service }
    let fanout : Consumer :=
      { connection := freshConn, topic := s.topic, fanout := true,
        proxy := ProxyTarget.service }
    let s2 := { s with conn := some freshConn,
                       consumers := [consumer_all, consumer_node, fanout] }
    (reg, Except.ok { s2 with timers := startTimers s2 })

/-- `Service.start`: manager init, record resolution by `(host, binary)` with
creation on NotFound, then the connection/consumer/timer tail.  Errors other
than the NotFound of the lookup propagate to the caller. -/
def Service.start (flags : Flags) (f : StartFaults) (freshConn : Nat)
    (reg : Registry) (s0 : Service) : Registry × Except Exc Service :=
  if f.initHostFault then (reg, Except.error Exc.managerFault)
  else
    let s := { s0 with model_disconnected := false }
    match withFault f.lookupFault (service_get_by_args reg s.host s.binary) with
    | Except.ok ref => startProceed f freshConn reg { s with service_id := ref.id }
    | Except.error DbErr.notFound =>
      if f.createFault then (reg, Except.error Exc.connectionFailure)
      else
        let res := Service._create_service_ref flags reg s
        startProceed f freshConn res.1 res.2.1
    | Except.error DbErr.connection => (reg, Except.error Exc.connectionFailure)

/-- Modelled from the spec: waiting on a killed green thread delivers the
GreenletExit cancellation signal (eventlet is external to src). -/
def greenThreadWaitAfterKill : Except Exc Unit := Except.error Exc.greenletExit

/-- `self.consumer_set_thread.kill()` followed by
`try: self.consumer_set_thread.wait() except greenlet.GreenletExit: pass`. -/
def consumerThreadKillWait : Except Exc Unit :=
  match greenThreadWaitAfterKill with
  | Except.error Exc.greenletExit => Except.ok ()
  | Except.error e => Except.error e
  | Except.ok u => Except.ok u

/-- Modelled from the spec: stopping a LoopingCall may fail; the flag says
whether this particular call raises. -/
def loopingCallStop (stopRaises : Timer → Bool) (t : Timer) : Except Exc Unit :=
  if stopRaises t then Except.error Exc.timerFailure else Except.ok ()

/-- Modelled from the spec: waiting on a LoopingCall may fail; the flag says
whether this particular call raises. -/
def loopingCallWait (waitRaises : Timer → Bool) (t : Timer) : Except Exc Unit :=
  if waitRaises t then Except.error Exc.timerFailure else Except.ok ()

/-- The timer loop of `stop`: `for x in self.timers: try: x.stop() except
Exception: pass` — both outcomes of each call continue the loop, so the loop
is total and returns the discarded outcomes in order. -/
def stopTimersLoop (stopRaises : Timer → Bool) : List Timer → List (Except Exc Unit)
  | [] => []
  | t :: ts =>
    match loopingCallStop stopRaises t with
    | Except.ok u => Except.ok u :: stopTimersLoop stopRaises ts
    | Except.error e => Except.error e :: stopTimersLoop stopRaises ts

/-- The timer loop of `wait`: `for x in self.timers: try: x.wait() except
Exception: pass` — every timer currently in the list has its wait invoked and
every failure is discarded. -/
def waitTimersLoop (waitRaises : Timer → Bool) :
    List Timer → List (Timer × Except Exc Unit)
  | [] => []
  | t :: ts =>
    match loopingCallWait waitRaises t with
    | Except.ok u => (t, Except.ok u) :: waitTimersLoop waitRaises ts
    | Except.error e => (t, Except.error e) :: waitTimersLoop waitRaises ts

/-- `Service.stop`: kill and join the consumer thread (GreenletExit
swallowed), stop every timer discarding failures, clear the timer list. -/
def Service.stop (stopRaises : Timer → Bool) (s : Service) :
    Except Exc (Service × List (Except Exc Unit)) :=
  match consumerThreadKillWait with
  | Except.error e => Except.error e
  | Except.ok _ =>
    Except.ok ({ s with timers := [] }, stopTimersLoop stopRaises s.timers)

/-- `Service.wait`: invoke the wait of every timer in the current timer list,
discarding failures; returns the timers joined with the discarded outcomes. -/
def Service.wait (waitRaises : Timer → Bool) (s : Service) :
    List (Timer × Except Exc Unit) :=
  waitTimersLoop waitRaises s.timers

/-- `Service.kill`: `stop` and then destroy the registry record by
`self.service_id`; the NotFound of the destroy is only logged, any other
destroy failure propagates. -/
def Service.kill (stopRaises : Timer → Bool) (destroyFault : Bool)
    (reg : Registry) (s : Service) :
    Registry × Except Exc (Service × List Emission) :=
  match Service.stop stopRaises s with
  | Except.error e => (reg, Except.error e)
  | Except.ok (s2, _) =>
    match withFault destroyFault (service_destroy reg s2.service_id) with
    | Except.ok reg2 => (reg2, Except.ok (s2, []))
    | Except.error DbErr.notFound =>
      (reg, Except.ok (s2, [Emission.warnNoDbEntry]))
    | Except.error DbErr.connection => (reg, Except.error Exc.connectionFailure)

structure HeartbeatFaults where
  get1Fault : Bool
  createFault : Bool
  get2Fault : Bool
  updateFault : Bool
deriving Repr, DecidableEq

/-- The observable outcome of one `report_state` call: the registry, the
service, the log lines emitted, and whether the protected block completed
without an exception (`ok = false` means the outer `except Exception` ran). -/
structure HeartbeatResult where
  reg : Registry
  svc : Service
  log : List Emission
  ok : Bool
deriving Repr, DecidableEq

/-- The outer `except Exception` handler of `report_state`: sets
`model_disconnected` and emits the single error report only when the flag was
not already set. -/
def hbFail (reg : Registry) (s : Service) (acc : List Emission) : HeartbeatResult :=
  if s.model_disconnected then ⟨reg, s, acc, false⟩
  else ⟨reg, { s with model_disconnected := true },
        acc ++ [Emission.errorReport], false⟩

/-- The tail of the protected block after a successful update: clears
`model_disconnected` and emits the single recovery notice only when the flag
was set. -/
def hbFinish (reg : Registry) (s : Service) (acc : List Emission) : HeartbeatResult :=
  if s.model_disconnected then
    ⟨reg, { s with model_disconnected := false },
     acc ++ [Emission.recoveryNotice], true⟩
  else ⟨reg, s, acc, true⟩

/-- The `db.service_update` step of `report_state` with the looked-up record:
on success the tail runs, on any failure the outer handler runs. -/
def hbUpdate (f : HeartbeatFaults) (reg : Registry) (s : Service)
    (acc : List Emission) (ref : ServiceRecord) : HeartbeatResult :=
  match withFault f.updateFault (service_update reg s.service_id (ref.report_count + 1)) with
  | Except.ok p => hbFinish p.1 s acc
  | Except.error _ => hbFail reg s acc

/-- `Service.report_state`: look up the record by id, recreating it (with a
debug line) and re-looking it up when the first lookup reports NotFound; then
increment `report_count`; every other failure anywhere in the block lands in
the outer handler. -/
def Service.report_state (flags : Flags) (f : HeartbeatFaults)
    (reg : Registry) (s : Service) : HeartbeatResult :=
  match withFault f.get1Fault (service_get reg s.service_id) with
  | Except.ok ref => hbUpdate f reg s [] ref
  | Except.error DbErr.notFound =>
    if f.createFault then hbFail reg s [Emission.debugRecreate]
    else
      let res := Service._create_service_ref flags reg s
      match withFault f.get2Fault (service_get res.1 res.2.1.service_id) with
      | Except.ok ref => hbUpdate f res.1 res.2.1 [Emission.debugRecreate] ref
      | Except.error _ => hbFail res.1 res.2.1 [Emission.debugRecreate]
  | Except.error DbErr.connection => hbFail reg s []

def noStartFaults : StartFaults := ⟨false, false, false, false⟩

def noHbFaults : HeartbeatFaults := ⟨false, false, false, false⟩

def flags0 : Flags :=
  { host := "h0", report_interval := 10, periodic_interval := 60,
    node_availability_zone := "nova",
    managers := [("scheduler_manager", "nova.scheduler.manager.SchedulerManager")] }

def reg0 : Registry := { records := [], nextId := 1 }

def svc0 : Service :=
  Service.init "host1" "nova-scheduler" "scheduler"
    (some "nova.scheduler.manager.SchedulerManager") (some 10) (some 60)

/-- The service produced by a fault-free `start` of `svc0` against the empty
registry with fresh connection 3. -/
def startedSvc : Service :=
  { host := "host1", binary := "nova-scheduler", topic := "scheduler",
    manager_class_name := some "nova.scheduler.manager.SchedulerManager",
    report_interval := some 10, periodic_interval := some 60,
    service_id := 1, model_disconnected := false,
    timers := [⟨TimerCallback.reportState, 10, false⟩,
               ⟨TimerCallback.periodicTasks, 60, false⟩],
    consumers := [⟨3, "scheduler", false, ProxyTarget.service⟩,
                  ⟨3, "scheduler.host1", false, ProxyTarget.service⟩,
                  ⟨3, "scheduler", true, ProxyTarget.service⟩],
    conn := some 3 }

def stoppedSvc : Service := { startedSvc with timers := [] }

/-- The record `_create_service_ref` asks the registry to create for a
service, with a given report count. -/
def recreatedRec (flags : Flags) (reg : Registry) (s : Service) (cnt : Nat) :
    ServiceRecord :=
  { id := reg.nextId, host := s.host, binary := s.binary, topic := s.topic,
    report_count := cnt, availability_zone := flags.node_availability_zone }

/-! Helper lemmas. -/

theorem notices_append (a b : List Emission) :
    notices (a ++ b) = notices a ++ notices b := by
  unfold notices
  exact List.filter_append a b

theorem notices_nil : notices [] = [] := rfl

theorem notices_debug : notices [Emission.debugRecreate] = [] := rfl

theorem notices_error1 : notices [Emission.errorReport] = [Emission.errorReport] := rfl

theorem notices_recovery1 :
    notices [Emission.recoveryNotice] = [Emission.recoveryNotice] := rfl

theorem hbFail_debounce (reg : Registry) (s0 s : Service) (acc : List Emission)
    (hacc : notices acc = []) (hdisc : s.model_disconnected = s0.model_disconnected) :
    (hbFail reg s acc).svc.model_disconnected = !(hbFail reg s acc).ok ∧
      notices (hbFail reg s acc).log =
        (if (hbFail reg s acc).ok then
          (if s0.model_disconnected then [Emission.recoveryNotice] else [])
         else
          (if s0.model_disconnected then [] else [Emission.errorReport])) := by
  unfold hbFail
  rw [← hdisc]
  by_cases h : s.model_disconnected <;>
    simp [h, notices_append, hacc, notices_error1]

theorem hbFinish_debounce (reg : Registry) (s0 s : Service) (acc : List Emission)
    (hacc : notices acc = []) (hdisc : s.model_disconnected = s0.model_disconnected) :
    (hbFinish reg s acc).svc.model_disconnected = !(hbFinish reg s acc).ok ∧
      notices (hbFinish reg s acc).log =
        (if (hbFinish reg s acc).ok then
          (if s0.model_disconnected then [Emission.recoveryNotice] else [])
         else
          (if s0.model_disconnected then [] else [Emission.errorReport])) := by
  unfold hbFinish
  rw [← hdisc]
  by_cases h : s.model_disconnected <;>
    simp [h, notices_append, hacc, notices_recovery1]

theorem hbUpdate_debounce (f : HeartbeatFaults) (reg : Registry) (s0 s : Service)
    (acc : List Emission) (ref : ServiceRecord)
    (hacc : notices acc = []) (hdisc : s.model_disconnected = s0.model_disconnected) :
    (hbUpdate f reg s acc ref).svc.model_disconnected = !(hbUpdate f reg s acc ref).ok ∧
      notices (hbUpdate f reg s acc ref).log =
        (if (hbUpdate f reg s acc ref).ok then
          (if s0.model_disconnected then [Emission.recoveryNotice] else [])
         else
          (if s0.model_disconnected then [] else [Emission.errorReport])) := by
  unfold hbUpdate
  cases hw : withFault f.updateFault
      (service_update reg s.service_id (ref.report_count + 1)) with
  | ok p => exact hbFinish_debounce p.1 s0 s acc hacc hdisc
  | error e => exact hbFail_debounce reg s0 s acc hacc hdisc

theorem withFault_false {α : Type} (r : Except DbErr α) : withFault false r = r := rfl

theorem withFault_true {α : Type} (r : Except DbErr α) :
    withFault true r = Except.error DbErr.connection := rfl

theorem service_get_mk (l : List ServiceRecord) (n i : Nat) :
    service_get { records := l, nextId := n } i
      = (match l.find? (fun r => r.id == i) with
         | some r => Except.ok r
         | none => Except.error DbErr.notFound) := rfl

theorem find_id_append_new (l : List ServiceRecord) (n : Nat) (created : ServiceRecord)
    (h : ∀ r ∈ l, r.id ≠ n) (hid : created.id = n) :
    (l ++ [created]).find? (fun r => r.id == n) = some created := by
  induction l with
  | nil =>
    simp only [List.nil_append]
    rw [List.find?_cons_of_pos]
    simp [hid]
  | cons a tl ih =>
    rw [List.cons_append, List.find?_cons_of_neg]
    · exact ih (fun r hr => h r (List.mem_cons_of_mem a hr))
    · simp [h a (List.mem_cons_self a tl)]

theorem find_id_map_replace (l : List ServiceRecord) (n : Nat) (r2 : ServiceRecord)
    (hid : r2.id = n) (hsome : l.find? (fun r => r.id == n) ≠ none) :
    (l.map (fun x => if x.id == n then r2 else x)).find? (fun r => r.id == n)
      = some r2 := by
  induction l with
  | nil => simp at hsome
  | cons a tl ih =>
    by_cases ha : a.id = n
    · simp only [List.map_cons, if_pos (by simp [ha] : (a.id == n) = true)]
      rw [List.find?_cons_of_pos]
      simp [hid]
    · simp only [List.map_cons, if_neg (by simp [ha] : ¬((a.id == n) = true))]
      rw [List.find?_cons_of_neg]
      · apply ih
        intro hnone
        apply hsome
        rw [List.find?_cons_of_neg]
        · exact hnone
        · simp [ha]
      · simp [ha]

theorem find_id_filter_ne (l : List ServiceRecord) (n : Nat) :
    (l.filter (fun r => !(r.id == n))).find? (fun r => r.id == n) = none := by
  induction l with
  | nil => rfl
  | cons a tl ih =>
    by_cases ha : a.id = n
    · simp only [List.filter_cons, if_neg (by simp [ha] : ¬((!(a.id == n)) = true))]
      exact ih
    · rw [List.filter_cons]
      simp only [if_pos (by simp [ha] : ((!(a.id == n)) = true))]
      rw [List.find?_cons_of_neg]
      · exact ih
      · simp [ha]

theorem hbFinish_reg (reg : Registry) (s : Service) (acc : List Emission) :
    (hbFinish reg s acc).reg = reg := by
  unfold hbFinish
  by_cases h : s.model_disconnected <;> simp [h]

theorem hbFinish_ok (reg : Registry) (s : Service) (acc : List Emission) :
    (hbFinish reg s acc).ok = true := by
  unfold hbFinish
  by_cases h : s.model_disconnected <;> simp [h]

theorem hbFinish_service_id (reg : Registry) (s : Service) (acc : List Emission) :
    (hbFinish reg s acc).svc.service_id = s.service_id := by
  unfold hbFinish
  by_cases h : s.model_disconnected <;> simp [h]

theorem destroy_get_gone (reg : Registry) (n : Nat) (r : ServiceRecord)
    (h : service_get reg n = Except.ok r) :
    ∃ reg3, service_destroy reg n = Except.ok reg3 ∧
      service_get reg3 n = Except.error DbErr.notFound := by
  unfold service_get at h
  cases hf : reg.records.find? (fun x => x.id == n) with
  | none => rw [hf] at h; cases h
  | some y =>
    refine ⟨{ reg with records := reg.records.filter (fun x => !(x.id == n)) }, ?_, ?_⟩
    · unfold service_destroy
      rw [hf]
    · unfold service_get
      rw [find_id_filter_ne]

theorem kill_registry (stopB : Timer → Bool) (reg : Registry) (s : Service) :
    (Service.kill stopB false reg s).1 =
      (match service_destroy reg s.service_id with
       | Except.ok reg2 => reg2
       | Except.error _ => reg) := by
  unfold Service.kill Service.stop consumerThreadKillWait greenThreadWaitAfterKill withFault
  cases hd : service_destroy reg s.service_id with
  | ok reg2 => simp [hd]
  | error e => cases e <;> simp [hd]

theorem report_state_recreate_shape (flags : Flags) (reg : Registry) (s : Service)
    (hwf : ∀ r ∈ reg.records, r.id < reg.nextId)
    (habsent : service_get reg s.service_id = Except.error DbErr.notFound) :
    ∃ reg2 : Registry,
      Service.report_state flags noHbFaults reg s
        = hbFinish reg2 { s with service_id := reg.nextId } [Emission.debugRecreate] ∧
      service_get reg2 reg.nextId = Except.ok (recreatedRec flags reg s 1) := by
  have hne : ∀ r ∈ reg.records, r.id ≠ reg.nextId := fun r hr => Nat.ne_of_lt (hwf r hr)
  have hfind1 : (reg.records ++ [recreatedRec flags reg s 0]).find?
        (fun r => r.id == reg.nextId)
      = some (recreatedRec flags reg s 0) :=
    find_id_append_new reg.records reg.nextId (recreatedRec flags reg s 0) hne rfl
  have hget2 : service_get
      { records := reg.records ++ [recreatedRec flags reg s 0], nextId := reg.nextId + 1 }
      reg.nextId = Except.ok (recreatedRec flags reg s 0) := by
    unfold service_get
    rw [hfind1]
  have hupd : service_update
      { records := reg.records ++ [recreatedRec flags reg s 0], nextId := reg.nextId + 1 }
      reg.nextId ((recreatedRec flags reg s 0).report_count + 1)
      = Except.ok
          ({ records := (reg.records ++ [recreatedRec flags reg s 0]).map
               (fun x => if x.id == reg.nextId then recreatedRec flags reg s 1 else x),
             nextId := reg.nextId + 1 }, recreatedRec flags reg s 1) := by
    unfold service_update
    rw [hfind1]
    simp [recreatedRec]
  refine ⟨{ records := (reg.records ++ [recreatedRec flags reg s 0]).map
              (fun x => if x.id == reg.nextId then recreatedRec flags reg s 1 else x),
            nextId := reg.nextId + 1 }, ?_, ?_⟩
  · unfold Service.report_state
    simp only [noHbFaults, withFault_false]
    rw [habsent]
    simp only [Service._create_service_ref, service_create, recreatedRec]
    simp only [recreatedRec] at hget2
    rw [hget2]
    unfold hbUpdate
    simp only [noHbFaults, withFault_false]
    simp only [recreatedRec] at hupd
    rw [hupd]
    rfl
  · rw [service_get_mk,
      find_id_map_replace (reg.records ++ [recreatedRec flags reg s 0]) reg.nextId
        (recreatedRec flags reg s 1) rfl
        (by rw [hfind1]; exact fun hx => Option.noConfusion hx)]

/-- C1: `report_state` debounces notifications: a failing invocation leaves
`model_disconnected` true and emits one error report exactly when the flag
was not already set; a succeeding invocation leaves the flag false and emits
one recovery notice exactly when the flag was set; no other notification is
ever emitted.  This per-invocation characterisation covers every sequence of
invocations. -/
theorem report_state_debounces_notifications (flags : Flags) (f : HeartbeatFaults)
    (reg : Registry) (s : Service) :
    (Service.report_state flags f reg s).svc.model_disconnected
        = !(Service.report_state flags f reg s).ok ∧
      notices (Service.report_state flags f reg s).log =
        (if (Service.report_state flags f reg s).ok then
          (if s.model_disconnected then [Emission.recoveryNotice] else [])
         else
          (if s.model_disconnected then [] else [Emission.errorReport])) := by
  unfold Service.report_state
  cases hg : withFault f.get1Fault (service_get reg s.service_id) with
  | ok ref => exact hbUpdate_debounce f reg s s [] ref notices_nil rfl
  | error e =>
    cases e with
    | connection => exact hbFail_debounce reg s s [] notices_nil rfl
    | notFound =>
      by_cases hc : f.createFault
      · simp only [hc, if_true]
        exact hbFail_debounce reg s s [Emission.debugRecreate] notices_debug rfl
      · simp only [hc, if_false]
        cases hg2 : withFault f.get2Fault
            (service_get (Service._create_service_ref flags reg s).1
              (Service._create_service_ref flags reg s).2.1.service_id) with
        | ok ref =>
          exact hbUpdate_debounce f (Service._create_service_ref flags reg s).1 s
            (Service._create_service_ref flags reg s).2.1 [Emission.debugRecreate]
            ref notices_debug rfl
        | error e2 =>
          exact hbFail_debounce (Service._create_service_ref flags reg s).1 s
            (Service._create_service_ref flags reg s).2.1 [Emission.debugRecreate]
            notices_debug rfl

theorem start_nofault_eq (flags : Flags) (conn : Nat) (reg : Registry) (s0 : Service) :
    Service.start flags noStartFaults conn reg s0
      = (match service_get_by_args reg s0.host s0.binary with
         | Except.ok ref =>
            startProceed noStartFaults conn reg
              { s0 with model_disconnected := false, service_id := ref.id }
         | Except.error DbErr.notFound =>
            startProceed noStartFaults conn
              (Service._create_service_ref flags reg
                { s0 with model_disconnected := false }).1
              (Service._create_service_ref flags reg
                { s0 with model_disconnected := false }).2.1
         | Except.error DbErr.connection => (reg, Except.error Exc.connectionFailure)) := by
  rfl

theorem startProceed_nofault_eq (conn : Nat) (reg : Registry) (s : Service) :
    startProceed noStartFaults conn reg s
      = (reg, Except.ok
          { s with
              conn := some conn,
              consumers := [⟨conn, s.topic, false, ProxyTarget.service⟩,
                            ⟨conn, s.topic ++ "." ++ s.host, false, ProxyTarget.service⟩,
                            ⟨conn, s.topic, true, ProxyTarget.service⟩],
              timers := startTimers s }) := by
  unfold startProceed
  simp [noStartFaults, startTimers]

theorem kill_nofault_eq (stopB : Timer → Bool) (reg : Registry) (s : Service) :
    Service.kill stopB false reg s
      = (match service_destroy reg s.service_id with
         | Except.ok reg2 =>
             (reg2, Except.ok (({ s with timers := [] } : Service), ([] : List Emission)))
         | Except.error DbErr.notFound =>
             (reg, Except.ok ({ s with timers := [] }, [Emission.warnNoDbEntry]))
         | Except.error DbErr.connection => (reg, Except.error Exc.connectionFailure)) := by
  rfl

theorem waitTimersLoop_fst (w : Timer → Bool) (l : List Timer) :
    (waitTimersLoop w l).map Prod.fst = l := by
  induction l with
  | nil => rfl
  | cons t ts ih =>
    unfold waitTimersLoop
    cases hw : loopingCallWait w t <;> simp [ih]

theorem hbFail_reg (reg : Registry) (s : Service) (acc : List Emission) :
    (hbFail reg s acc).reg = reg := by
  unfold hbFail
  by_cases h : s.model_disconnected <;> simp [h]

/-- C2: when the in-heartbeat lookup by id reports NotFound, `report_state`
recreates the record with `report_count = 0`, re-looks it up and updates it,
so the heartbeat succeeds and afterwards the registry holds a record under
the current `service_id` with `report_count = 1`; a lookup failure other
than NotFound leaves the registry unchanged (no recreation). -/
theorem report_state_recreates_deleted_record (flags : Flags) (reg : Registry)
    (s : Service)
    (hwf : ∀ r ∈ reg.records, r.id < reg.nextId)
    (habsent : service_get reg s.service_id = Except.error DbErr.notFound) :
    ((Service.report_state flags noHbFaults reg s).ok = true ∧
      service_get (Service.report_state flags noHbFaults reg s).reg
          (Service.report_state flags noHbFaults reg s).svc.service_id
        = Except.ok { id := reg.nextId, host := s.host, binary := s.binary,
                      topic := s.topic, report_count := 1,
                      availability_zone := flags.node_availability_zone }) ∧
    (∀ f : HeartbeatFaults, f.get1Fault = true →
        (Service.report_state flags f reg s).reg = reg) := by
  obtain ⟨reg2, heq, hget⟩ := report_state_recreate_shape flags reg s hwf habsent
  constructor
  · rw [heq]
    refine ⟨hbFinish_ok _ _ _, ?_⟩
    rw [hbFinish_reg, hbFinish_service_id]
    simpa [recreatedRec] using hget
  · intro f hf
    unfold Service.report_state
    rw [hf, withFault_true]
    exact hbFail_reg reg s []

/-- C10: `service_id` tracks the most recently found or created record:
`_create_service_ref` always overwrites it with the id of the record it just
created, so after an in-heartbeat recreation the `report_count` update hits
the new record and a subsequent `kill` destroys the new record. -/
theorem service_id_tracks_latest_record (flags : Flags) (reg : Registry) (s : Service)
    (hwf : ∀ r ∈ reg.records, r.id < reg.nextId)
    (habsent : service_get reg s.service_id = Except.error DbErr.notFound) :
    (∀ (flags2 : Flags) (reg2 : Registry) (s2 : Service),
        (Service._create_service_ref flags2 reg2 s2).2.1.service_id
          = (Service._create_service_ref flags2 reg2 s2).2.2.id) ∧
    (Service.report_state flags noHbFaults reg s).svc.service_id = reg.nextId ∧
    service_get (Service.report_state flags noHbFaults reg s).reg reg.nextId
      = Except.ok (recreatedRec flags reg s 1) ∧
    (∀ stopB : Timer → Bool,
        service_get
          (Service.kill stopB false (Service.report_state flags noHbFaults reg s).reg
            (Service.report_state flags noHbFaults reg s).svc).1 reg.nextId
          = Except.error DbErr.notFound) := by
  obtain ⟨reg2, heq, hget⟩ := report_state_recreate_shape flags reg s hwf habsent
  refine ⟨fun flags2 reg2x s2 => rfl, ?_, ?_, ?_⟩
  · rw [heq, hbFinish_service_id]
  · rw [heq, hbFinish_reg]
    exact hget
  · intro stopB
    obtain ⟨reg3, hd, hg3⟩ := destroy_get_gone reg2 reg.nextId _ hget
    rw [heq, hbFinish_reg, kill_nofault_eq, hbFinish_service_id]
    dsimp only
    rw [hd]
    exact hg3

/-- C3 (counterexample): on a concrete service, `start` creates two timers,
but `stop` empties the timer list, so a `wait` issued after `stop` performs
no timer join at all — it does not wait until the timers started by `start`
have completed their own wait. -/
theorem wait_after_stop_counterexample :
    (Service.start flags0 noStartFaults 3 reg0 svc0).2 = Except.ok startedSvc ∧
    startedSvc.timers ≠ [] ∧
    Service.stop (fun _ => false) startedSvc
      = Except.ok (stoppedSvc, [Except.ok (), Except.ok ()]) ∧
    Service.wait (fun _ => false) stoppedSvc = [] ∧
    (Service.wait (fun _ => false) stoppedSvc).map Prod.fst ≠ startedSvc.timers := by
  refine ⟨rfl, by decide, rfl, rfl, by decide⟩

/-- C3 (amended): `wait()` invokes the wait of exactly the timers in the
current timer list, discarding per-timer failures; since `stop()` clears
that list, a `wait()` issued after `stop()` joins no timers. -/
theorem wait_joins_current_timer_list (w f : Timer → Bool) (s s2 : Service)
    (tr : List (Except Exc Unit)) (h : Service.stop f s = Except.ok (s2, tr)) :
    Service.wait w s2 = [] ∧
    ∀ t : Service, (Service.wait w t).map Prod.fst = t.timers := by
  constructor
  · have hs2 : s2 = { s with timers := [] } := by
      unfold Service.stop consumerThreadKillWait greenThreadWaitAfterKill at h
      simp only [Except.ok.injEq, Prod.mk.injEq] at h
      exact h.1.symm
    rw [hs2]
    rfl
  · intro t
    exact waitTimersLoop_fst w t.timers

/-- C4: `stop` never raises and leaves the timer list empty, and calling it
again on the result again does not raise and again leaves the list empty,
whatever failures the individual timer stops inject. -/
theorem stop_twice_no_raise_and_clears_timers (f g : Timer → Bool) (s : Service) :
    ∃ s1 tr1, Service.stop f s = Except.ok (s1, tr1) ∧ s1.timers = [] ∧
      ∃ s2 tr2, Service.stop g s1 = Except.ok (s2, tr2) ∧ s2.timers = [] := by
  exact ⟨{ s with timers := [] }, stopTimersLoop f s.timers, rfl, rfl,
         { s with timers := [] }, stopTimersLoop g [], rfl, rfl⟩

/-- C5: `start` resolves the record by `(host, binary)`: on NotFound it
creates one with `report_count = 0` and the configured availability zone and
remembers the generated id in `service_id`; a lookup failure other than
NotFound propagates out of `start` and creates no record. -/
theorem start_resolves_record_by_host_binary (flags : Flags) (conn : Nat)
    (reg : Registry) (s : Service)
    (hwf : ∀ r ∈ reg.records, r.id < reg.nextId) :
    (service_get_by_args reg s.host s.binary = Except.error DbErr.notFound →
      ∃ s2, (Service.start flags noStartFaults conn reg s).2 = Except.ok s2 ∧
        s2.service_id = reg.nextId ∧
        service_get (Service.start flags noStartFaults conn reg s).1 reg.nextId
          = Except.ok (recreatedRec flags reg s 0)) ∧
    (∀ f : StartFaults, f.initHostFault = false → f.lookupFault = true →
      (Service.start flags f conn reg s).1 = reg ∧
      (Service.start flags f conn reg s).2 = Except.error Exc.connectionFailure) := by
  have hne : ∀ r ∈ reg.records, r.id ≠ reg.nextId := fun r hr => Nat.ne_of_lt (hwf r hr)
  constructor
  · intro habs
    have heq : Service.start flags noStartFaults conn reg s
        = startProceed noStartFaults conn
            (Service._create_service_ref flags reg
              { s with model_disconnected := false }).1
            (Service._create_service_ref flags reg
              { s with model_disconnected := false }).2.1 := by
      rw [start_nofault_eq, habs]
    rw [heq, startProceed_nofault_eq]
    refine ⟨_, rfl, rfl, ?_⟩
    show service_get
        { records := reg.records ++ [recreatedRec flags reg s 0],
          nextId := reg.nextId + 1 } reg.nextId
      = Except.ok (recreatedRec flags reg s 0)
    rw [service_get_mk,
      find_id_append_new reg.records reg.nextId (recreatedRec flags reg s 0) hne rfl]
  · intro f hinit hlook
    unfold Service.start
    rw [hinit, hlook, if_neg Bool.false_ne_true]
    simp only [withFault_true]
    exact ⟨trivial, trivial⟩

/-- C6: `kill` is `stop` followed by destroying the record by `service_id`;
when the registry reports that record NotFound, `kill` completes without
raising, only logs a warning, and leaves the registry unchanged (no new
record is created). -/
theorem kill_absent_record_completes (stopRaises : Timer → Bool) (reg : Registry)
    (s : Service)
    (habsent : service_get reg s.service_id = Except.error DbErr.notFound) :
    Service.kill stopRaises false reg s
      = (reg, Except.ok ({ s with timers := [] }, [Emission.warnNoDbEntry])) := by
  have hf : reg.records.find? (fun r => r.id == s.service_id) = none := by
    unfold service_get at habsent
    cases hx : reg.records.find? (fun r => r.id == s.service_id) with
    | none => rfl
    | some y => rw [hx] at habsent; cases habsent
  have hd : service_destroy reg s.service_id = Except.error DbErr.notFound := by
    unfold service_destroy
    rw [hf]
  rw [kill_nofault_eq, hd]

/-- C7: an attribute lookup on a Service for a name the service itself does
not define returns the manager attribute of that name, and fails with
AttributeError when the manager lacks the name as well. -/
theorem getattr_forwards_to_manager (managerAttrs : List (String × Nat)) (k : String)
    (h : k ∉ Service.definedAttrNames) :
    (∀ p : String × Nat, managerAttrs.find? (fun q => q.1 == k) = some p →
        Service.getattrLookup managerAttrs k = Except.ok (AttrVal.forwarded p.2)) ∧
    (managerAttrs.find? (fun q => q.1 == k) = none →
        Service.getattrLookup managerAttrs k = Except.error Exc.attributeError) := by
  constructor
  · intro p hp
    unfold Service.getattrLookup
    rw [if_neg h, hp]
  · intro hn
    unfold Service.getattrLookup
    rw [if_neg h, hn]

theorem startProceed_ok_shape (f : StartFaults) (conn : Nat) (reg : Registry)
    (s s2 : Service) (h : (startProceed f conn reg s).2 = Except.ok s2) :
    s2.conn = some conn ∧
    s2.consumers = [⟨conn, s.topic, false, ProxyTarget.service⟩,
                    ⟨conn, s.topic ++ "." ++ s.host, false, ProxyTarget.service⟩,
                    ⟨conn, s.topic, true, ProxyTarget.service⟩] := by
  unfold startProceed at h
  by_cases hk : (s.binary == "nova-compute" && f.updateResourceFault) = true
  · rw [if_pos hk] at h
    simp at h
  · rw [if_neg hk] at h
    simp only [Except.ok.injEq] at h
    rw [← h]
    exact ⟨rfl, rfl⟩

/-- C8: whenever `start` succeeds, the started service carries exactly three
consumers sharing the one fresh connection and dispatching to the service
itself — topic, topic.host, and fanout on the topic — and the spawned wait
body closes the consumer set exactly once, as its last action, for a normal
as well as for a cancelled wait. -/
theorem start_consumer_topology_and_close_once (flags : Flags) (f : StartFaults)
    (conn : Nat) (reg : Registry) (s s2 : Service)
    (h : (Service.start flags f conn reg s).2 = Except.ok s2) :
    s2.conn = some conn ∧
    s2.consumers = [⟨conn, s.topic, false, ProxyTarget.service⟩,
                    ⟨conn, s.topic ++ "." ++ s.host, false, ProxyTarget.service⟩,
                    ⟨conn, s.topic, true, ProxyTarget.service⟩] ∧
    (∀ o : WaitOutcome, (consumerSetWaitRun o).count CsEvent.closed = 1 ∧
        (consumerSetWaitRun o).getLast? = some CsEvent.closed) := by
  have hclose : ∀ o : WaitOutcome, (consumerSetWaitRun o).count CsEvent.closed = 1 ∧
      (consumerSetWaitRun o).getLast? = some CsEvent.closed := by
    intro o
    cases o <;> exact ⟨by decide, by decide⟩
  unfold Service.start at h
  by_cases h1 : f.initHostFault = true
  · rw [if_pos h1] at h
    simp at h
  · rw [if_neg h1] at h
    dsimp only at h
    rcases hx : withFault f.lookupFault
        (service_get_by_args reg s.host s.binary) with e | ref
    · rw [hx] at h
      cases e with
      | notFound =>
        by_cases hc : f.createFault = true
        · rw [if_pos hc] at h
          simp at h
        · rw [if_neg hc] at h
          have := startProceed_ok_shape f conn
            (Service._create_service_ref flags reg
              { s with model_disconnected := false }).1
            (Service._create_service_ref flags reg
              { s with model_disconnected := false }).2.1 s2 h
          exact ⟨this.1, this.2, hclose⟩
      | connection => simp at h
    · rw [hx] at h
      have := startProceed_ok_shape f conn reg
        { s with model_disconnected := false, service_id := ref.id } s2 h
      exact ⟨this.1, this.2, hclose⟩

/-- C9: `Service.create` replaces a falsy (`None` or `0`) report or periodic
interval with the configured flag default, so a timer cannot be disabled
through `create` (the flag lower bound keeps the default positive and
`start` then always schedules the heartbeat timer); only the plain
constructor stores an interval verbatim, where a falsy value suppresses the
corresponding timer in `start`. -/
theorem create_defaults_falsy_intervals (flags : Flags) (argv0base : String)
    (hostO binaryO topicO managerO : Option String) (v w : Option Nat)
    (hv : pyTruthyNat v = false) (hw : pyTruthyNat w = false) :
    (Service.create flags argv0base hostO binaryO topicO managerO v w).report_interval
        = some flags.report_interval ∧
    (Service.create flags argv0base hostO binaryO topicO managerO v w).periodic_interval
        = some flags.periodic_interval ∧
    (0 < flags.report_interval →
      ({ callback := TimerCallback.reportState, interval := flags.report_interval,
         now := false } : Timer)
        ∈ startTimers (Service.create flags argv0base hostO binaryO topicO managerO v w)) ∧
    (∀ (h b t : String) (m : Option String) (ri pint : Option Nat),
      (Service.init h b t m ri pint).report_interval = ri ∧
      (Service.init h b t m ri pint).periodic_interval = pint ∧
      (pyTruthyNat ri = false →
        ∀ tm ∈ startTimers (Service.init h b t m ri pint),
          tm.callback ≠ TimerCallback.reportState)) := by
  refine ⟨?_, ?_, ?_, ?_⟩
  · simp [Service.create, Service.init, hv]
  · simp [Service.create, Service.init, hw]
  · intro h0
    have hne : flags.report_interval ≠ 0 := Nat.pos_iff_ne_zero.mp h0
    simp only [Service.create, Service.init, hv, hw, Bool.false_eq_true, if_false]
    simp only [startTimers]
    by_cases hp : flags.periodic_interval = 0 <;>
      simp [pyTruthyNat, hne, hp]
  · intro h b t m ri pint
    refine ⟨rfl, rfl, ?_⟩
    intro hri tm htm
    simp only [startTimers, Service.init, hri, Bool.false_eq_true, if_false,
      List.nil_append, List.append_nil] at htm
    by_cases hp : pyTruthyNat pint = true
    · rw [hp] at htm
      simp at htm
      rw [htm]
      simp
    · rw [Bool.not_eq_true] at hp
      rw [hp] at htm
      simp at htm

theorem report_state_recreates_deleted_record_check :
    ((Service.report_state flags0 noHbFaults reg0 svc0).ok = true ∧
      service_get (Service.report_state flags0 noHbFaults reg0 svc0).reg
          (Service.report_state flags0 noHbFaults reg0 svc0).svc.service_id
        = Except.ok { id := reg0.nextId, host := svc0.host, binary := svc0.binary,
                      topic := svc0.topic, report_count := 1,
                      availability_zone := flags0.node_availability_zone }) ∧
    (∀ f : HeartbeatFaults, f.get1Fault = true →
        (Service.report_state flags0 f reg0 svc0).reg = reg0) :=
  report_state_recreates_deleted_record flags0 reg0 svc0 (by decide) rfl

theorem service_id_tracks_latest_record_check :
    (∀ (flags2 : Flags) (reg2 : Registry) (s2 : Service),
        (Service._create_service_ref flags2 reg2 s2).2.1.service_id
          = (Service._create_service_ref flags2 reg2 s2).2.2.id) ∧
    (Service.report_state flags0 noHbFaults reg0 svc0).svc.service_id = reg0.nextId ∧
    service_get (Service.report_state flags0 noHbFaults reg0 svc0).reg reg0.nextId
      = Except.ok (recreatedRec flags0 reg0 svc0 1) ∧
    (∀ stopB : Timer → Bool,
        service_get
          (Service.kill stopB false
            (Service.report_state flags0 noHbFaults reg0 svc0).reg
            (Service.report_state flags0 noHbFaults reg0 svc0).svc).1 reg0.nextId
          = Except.error DbErr.notFound) :=
  service_id_tracks_latest_record flags0 reg0 svc0 (by decide) rfl

theorem wait_joins_current_timer_list_check :
    Service.wait (fun _ => false) stoppedSvc = [] ∧
    ∀ t : Service, (Service.wait (fun _ => false) t).map Prod.fst = t.timers :=
  wait_joins_current_timer_list (fun _ => false) (fun _ => false) startedSvc stoppedSvc
    [Except.ok (), Except.ok ()] rfl

theorem start_resolves_record_by_host_binary_check :
    (∃ s2, (Service.start flags0 noStartFaults 3 reg0 svc0).2 = Except.ok s2 ∧
        s2.service_id = reg0.nextId ∧
        service_get (Service.start flags0 noStartFaults 3 reg0 svc0).1 reg0.nextId
          = Except.ok (recreatedRec flags0 reg0 svc0 0)) ∧
    ((Service.start flags0 ⟨false, true, false, false⟩ 3 reg0 svc0).1 = reg0 ∧
      (Service.start flags0 ⟨false, true, false, false⟩ 3 reg0 svc0).2
        = Except.error Exc.connectionFailure) :=
  ⟨(start_resolves_record_by_host_binary flags0 3 reg0 svc0 (by decide)).1 rfl,
   (start_resolves_record_by_host_binary flags0 3 reg0 svc0 (by decide)).2
     ⟨false, true, false, false⟩ rfl rfl⟩

theorem kill_absent_record_completes_check :
    Service.kill (fun _ => false) false reg0 svc0
      = (reg0, Except.ok ({ svc0 with timers := [] }, [Emission.warnNoDbEntry])) :=
  kill_absent_record_completes (fun _ => false) reg0 svc0 rfl

theorem getattr_forwards_to_manager_check :
    Service.getattrLookup [("run_instance", 7)] "run_instance"
      = Except.ok (AttrVal.forwarded 7) ∧
    Service.getattrLookup [("run_instance", 7)] "describe_resource"
      = Except.error Exc.attributeError :=
  ⟨(getattr_forwards_to_manager [("run_instance", 7)] "run_instance" (by decide)).1
     ("run_instance", 7) rfl,
   (getattr_forwards_to_manager [("run_instance", 7)] "describe_resource"
     (by decide)).2 rfl⟩

theorem start_consumer_topology_and_close_once_check :
    startedSvc.conn = some 3 ∧
    startedSvc.consumers
      = [⟨3, svc0.topic, false, ProxyTarget.service⟩,
         ⟨3, svc0.topic ++ "." ++ svc0.host, false, ProxyTarget.service⟩,
         ⟨3, svc0.topic, true, ProxyTarget.service⟩] ∧
    (∀ o : WaitOutcome, (consumerSetWaitRun o).count CsEvent.closed = 1 ∧
        (consumerSetWaitRun o).getLast? = some CsEvent.closed) :=
  start_consumer_topology_and_close_once flags0 noStartFaults 3 reg0 svc0 startedSvc rfl

theorem create_defaults_falsy_intervals_check :
    (Service.create flags0 "nova-api" none none none none (some 0) none).report_interval
        = some flags0.report_interval ∧
    (Service.create flags0 "nova-api" none none none none (some 0) none).periodic_interval
        = some flags0.periodic_interval ∧
    (0 < flags0.report_interval →
      ({ callback := TimerCallback.reportState, interval := flags0.report_interval,
         now := false } : Timer)
        ∈ startTimers (Service.create flags0 "nova-api" none none none none (some 0) none)) ∧
    (∀ (h b t : String) (m : Option String) (ri pint : Option Nat),
      (Service.init h b t m ri pint).report_interval = ri ∧
      (Service.init h b t m ri pint).periodic_interval = pint ∧
      (pyTruthyNat ri = false →
        ∀ tm ∈ startTimers (Service.init h b t m ri pint),
          tm.callback ≠ TimerCallback.reportState)) :=
  create_defaults_falsy_intervals flags0 "nova-api" none none none none (some 0) none
    rfl rfl
